import Mathlib

/-!
# Error-translation middleware (`src/middleware/errorHandler.js`)

A shallow embedding of the Express error middleware and of the part of the
JavaScript value semantics it relies on, followed by theorems about the status
code, the JSON payload and the log call it produces.

Modelling conventions.

* A JavaScript value is a `JSVal`. Numbers are `JSNum`: a rational (every finite
  double is one; `-0` is identified with `0`, which no operation used here tells
  apart), `NaN` or an infinity.
* An object (a plain object, an array, an `Error` instance) is `obj props hidden`:
  `props` lists its own enumerable string-keyed data properties, in `Object.keys`
  order; `hidden` lists the other data properties a property read finds, own
  non-enumerable ones first (the `message` of an `Error` instance), then
  inherited ones. Functions, accessors other than `__proto__`, symbols, BigInts
  and proxies are not modelled.
* A string has one index property per UTF-16 code unit. A surrogate half read
  from such an index is no Lean string and is shown as U+FFFD; the handler reads
  nothing of it but its absent `message`.
* The error `err` is the record of the properties the handler reads, plus the
  outcome of `err instanceof ApiError`. A thrown primitive (a string, say) reads
  as `undefined` on every property; Express calls an error middleware with a
  truthy `err` only, so `err` is never `null` or `undefined`.
* The conversion of an object to a primitive (`ToPrimitive`) and of a string to a
  number (`StringToNumber`) are a parameter `cv` of the handler: what number
  results, and whether the conversion of an object raises a `TypeError` (no
  callable `toString` or `valueOf` yields a primitive). Without function-valued
  properties `valueOf` never yields a primitive, so an object converts to a
  string exactly when it converts to a number.
* `res.status(c).json(p)` is recorded as the pair `(c, p)`; the object `p` is the
  one handed to `json`, so a property whose value is `undefined` is present.
* A `TypeError` raised while the handler runs ends it at that point: what was
  logged before stays, and the response is `none` when `res.status` was not
  reached. The handler can raise one in the template literal of line 43, in
  `Object.keys` at line 62 and in the property read of line 82.
* The callback `next` is represented by the list of the arguments it is called
  with, and a promise by the state it ends in (`asyncHandler`, `notFound`).
-/

namespace ErrorHandler

/-! ## JavaScript values -/

/-- A JavaScript number. -/
inductive JSNum where
  | nan
  | fin (q : ℚ)
  | posInf
  | negInf

/-- A JavaScript value; `obj props hidden` is an object with own enumerable properties
`props` and further readable properties `hidden`. -/
inductive JSVal where
  | undefined
  | null
  | bool (b : Bool)
  | num (n : JSNum)
  | str (s : String)
  | obj (props : List (String × JSVal)) (hidden : List (String × JSVal))

/-- The conversions that are not modelled, as parameters of the handler: `StringToNumber`,
the number an object converts to, and whether converting an object to a primitive raises a
`TypeError`. -/
structure Coercion where
  ofString : String → JSNum
  ofObject : List (String × JSVal) → List (String × JSVal) → JSNum
  noPrimitive : List (String × JSVal) → List (String × JSVal) → Bool

namespace JSNum

/-- The relation `a >= b` on numbers: false as soon as one side is `NaN`. -/
def ge : JSNum → JSNum → Bool
  | nan, _ => false
  | _, nan => false
  | fin a, fin b => decide (b ≤ a)
  | posInf, _ => true
  | _, negInf => true
  | fin _, posInf => false
  | negInf, _ => false

/-- The relation `a < b` on numbers: false as soon as one side is `NaN`. -/
def lt : JSNum → JSNum → Bool
  | nan, _ => false
  | _, nan => false
  | fin a, fin b => decide (a < b)
  | posInf, _ => false
  | negInf, negInf => false
  | negInf, _ => true
  | fin _, posInf => true
  | fin _, negInf => false

/-- Truthiness of a number: `0` and `NaN` are falsy. -/
def truthy : JSNum → Bool
  | nan => false
  | fin q => decide (q ≠ 0)
  | _ => true

end JSNum

namespace JSVal

/-- The conversion `ToBoolean`. -/
def truthy : JSVal → Bool
  | undefined => false
  | null => false
  | bool b => b
  | num n => n.truthy
  | str s => decide (s ≠ "")
  | obj _ _ => true

/-- The operator `a || b`. -/
def lor (a b : JSVal) : JSVal := if a.truthy then a else b

/-- The comparison `v === "s"` against a string literal. -/
def strictEqStr : JSVal → String → Bool
  | str t, s => decide (t = s)
  | _, _ => false

/-- The comparison `v === k` against a finite number literal. -/
def strictEqNum : JSVal → ℚ → Bool
  | num (.fin q), k => decide (q = k)
  | _, _ => false

/-- The conversion `ToNumber`. -/
def toNumber (cv : Coercion) : JSVal → JSNum
  | undefined => .nan
  | null => .fin 0
  | bool b => .fin (if b then 1 else 0)
  | num n => n
  | str s => cv.ofString s
  | obj props hidden => cv.ofObject props hidden

/-- The comparison `v >= k` against a number literal. -/
def geNum (cv : Coercion) (v : JSVal) (k : ℚ) : Bool :=
  (v.toNumber cv).ge (.fin k)

/-- The comparison `v < k` against a number literal. -/
def ltNum (cv : Coercion) (v : JSVal) (k : ℚ) : Bool :=
  (v.toNumber cv).lt (.fin k)

/-- Whether converting `v` to a string, as a template literal does, raises a `TypeError`:
a primitive always converts. -/
def unprintable (cv : Coercion) : JSVal → Bool
  | obj props hidden => cv.noPrimitive props hidden
  | _ => false

/-- The UTF-16 code units of a string, each as the one-unit string an index read yields; a
character outside the basic plane gives two surrogate halves, shown as U+FFFD. -/
def codeUnits (s : String) : List String :=
  s.toList.flatMap fun c =>
    if c.toNat < 65536 then [c.toString]
    else [(Char.ofNat 65533).toString, (Char.ofNat 65533).toString]

/-- The call `Object.keys(v)`: `none` is the `TypeError` on `undefined` and `null`. -/
def objectKeys : JSVal → Option (List String)
  | undefined => none
  | null => none
  | obj props _ => some (props.map Prod.fst)
  | str s => some ((List.range (codeUnits s).length).map toString)
  | _ => some []

/-- Reading `key` in a property list: the first entry with that key. -/
def lookup (key : String) : List (String × JSVal) → JSVal
  | [] => undefined
  | (k, v) :: rest => if k = key then v else lookup key rest

/-- The data properties of a string: `length` and the indices. -/
def stringProp (s : String) (key : String) : JSVal :=
  if key = "length" then num (.fin ((codeUnits s).length : ℚ))
  else
    match key.toNat? with
    | some i => if toString i = key then (((codeUnits s).get? i).map str).getD undefined
      else undefined
    | none => undefined

/-- The property read `v[key]`: `none` is the `TypeError` on `undefined` and `null`. On an
object the own enumerable properties are searched first, then the other readable ones. -/
def getProp (v : JSVal) (key : String) : Option JSVal :=
  match v with
  | undefined => none
  | null => none
  | obj props hidden => some (lookup key (props ++ hidden))
  | str s => some (stringProp s key)
  | _ => some undefined

/-- Defining or updating the own enumerable property `key` in a property list. -/
def defineOwn (key : String) (v : JSVal) : List (String × JSVal) → List (String × JSVal)
  | [] => [(key, v)]
  | (k, w) :: rest => if k = key then (k, v) :: rest else (k, w) :: defineOwn key v rest

/-- The assignment `o[key] = v` on an object created as `{}`, given as its two property
lists: it defines or updates an own property, except that the key `__proto__` goes to the
setter inherited from `Object.prototype`, which defines no own property and replaces the
prototype when `v` is an object or `null`. The handler assigns each key once, so the setter is
still inherited when `__proto__` is assigned. -/
def setProp (key : String) (v : JSVal) (props hidden : List (String × JSVal)) :
    List (String × JSVal) × List (String × JSVal) :=
  if key = "__proto__" then
    match v with
    | obj p h => (props, p ++ h)
    | null => (props, [])
    | _ => (props, hidden)
  else (defineOwn key v props, hidden)

end JSVal

/-! ## The error, the request and what the handler produces -/

/-- The error value the handler receives: whether it is an `ApiError` instance, the
properties the handler reads, and `isOperational`, which the `ApiError` constructor sets. -/
structure JSError where
  isApiError : Bool
  statusCode : JSVal
  message : JSVal
  name : JSVal
  type : JSVal
  status : JSVal
  code : JSVal
  keyValue : JSVal
  errors : JSVal
  stack : JSVal
  isOperational : JSVal

/-- The request properties the handler reads. Express supplies them as strings (`ip` may
be `undefined`), so converting them to a string for the log line never throws. -/
structure Request where
  originalUrl : JSVal
  method : JSVal
  ip : JSVal

/-- The object handed to `res.json`; an optional field is `none` when the property is absent. -/
structure Payload where
  success : Bool
  error : JSVal
  message : JSVal
  errors : Option JSVal
  stack : Option JSVal

/-- The response: the argument of `res.status` and the argument of `json`. -/
structure Response where
  status : JSVal
  body : Payload

/-- The logger call: the values interpolated into the log line, in order, and for
`logger.error` the `stack` entry of its second argument. -/
inductive LogCall where
  | warn (parts : List JSVal)
  | error (parts : List JSVal) (stack : JSVal)

/-- All the handler does: the logger calls it makes, in order, and the response it sends,
`none` when a `TypeError` ends it before `res.status` is reached. -/
structure Outcome where
  log : List LogCall
  response : Option Response

/-! ## The handler -/

/-- The fixed message of the payload-too-large branch (line 32). -/
def payloadTooLargeMessage : String :=
  "Request payload too large. Maximum file size is 20MB. Please reduce the file size and try again."

/-- The test `process.env.NODE_ENV === 'development'`. -/
def isDevelopment (nodeEnv : Option String) : Bool :=
  match nodeEnv with
  | some s => decide (s = "development")
  | none => false

/-- The condition of line 30: `err.type === 'entity.too.large' || err.status === 413`. -/
def sizeLimitMarker (err : JSError) : Bool :=
  err.type.strictEqStr "entity.too.large" || err.status.strictEqNum 413

/-- Lines 20-27: the initial `statusCode`. -/
def initialStatus (err : JSError) : JSVal :=
  if err.isApiError then err.statusCode else err.statusCode.lor (.num (.fin 500))

/-- Lines 48-51: the validation rule. -/
def validationRule (err : JSError) (sm : JSVal × JSVal) : JSVal × JSVal :=
  if err.name.strictEqStr "ValidationError" then
    (.num (.fin 400), err.message.lor (.str "One or more fields are invalid"))
  else sm

/-- Lines 54-57: the token rule. -/
def tokenRule (err : JSError) (sm : JSVal × JSVal) : JSVal × JSVal :=
  if err.name.strictEqStr "JsonWebTokenError" || err.name.strictEqStr "TokenExpiredError" then
    (.num (.fin 401), .str "Invalid or expired token")
  else sm

/-- Lines 60-64: the duplicate-key rule; `Object.keys(err.keyValue)` may throw. -/
def duplicateKeyRule (err : JSError) (sm : JSVal × JSVal) : Option (JSVal × JSVal) :=
  if err.code.strictEqNum 11000 then
    match err.keyValue.objectKeys with
    | none => none
    | some keys => some (.num (.fin 400), .str (keys.head?.getD "undefined" ++ " already exists"))
  else some sm

/-- Lines 67-70: the cast rule. -/
def castRule (err : JSError) (sm : JSVal × JSVal) : JSVal × JSVal :=
  if err.name.strictEqStr "CastError" then (.num (.fin 400), .str "Invalid ID format") else sm

/-- Lines 47-70: the rules run in source order on the pair `(statusCode, message)`. -/
def classify (err : JSError) : Option (JSVal × JSVal) :=
  (duplicateKeyRule err (tokenRule err (validationRule err (initialStatus err, err.message)))).map
    (castRule err)

/-- Lines 80-83: the `forEach` over `Object.keys(err.errors)`, filling the object `errors`,
held as its two property lists. -/
def fieldMessages (source : JSVal) :
    List String → List (String × JSVal) × List (String × JSVal) →
      Option (List (String × JSVal) × List (String × JSVal))
  | [], acc => some acc
  | key :: rest, acc =>
    match source.getProp key with
    | none => none
    | some sub =>
      match sub.getProp "message" with
      | none => none
      | some m => fieldMessages source rest (JSVal.setProp key m acc.1 acc.2)

/-- Lines 78-88: the `errors` property of the payload; the outer `none` is a `TypeError`. -/
def errorsField (err : JSError) : Option (Option JSVal) :=
  if err.errors.truthy then
    if err.name.strictEqStr "ValidationError" then
      match err.errors.objectKeys with
      | none => none
      | some keys =>
        (fieldMessages err.errors keys ([], [])).map fun es => some (.obj es.1 es.2)
    else some (some err.errors)
  else some none

/-- The payload before the mode-dependent rewriting (lines 72-88). -/
def basePayload (err : JSError) (message : JSVal) (errors : Option JSVal) : Payload :=
  { success := false
    error := err.name.lor (.str "ServerError")
    message := (message.lor err.message).lor (.str "An error occurred")
    errors := errors
    stack := none }

/-- Lines 90-116: the mode-dependent rewriting of the payload. The comparisons convert
`statusCode` to a number; an object reaches them only from `err.statusCode`, which line 43
has converted to a string before, so they raise no `TypeError` of their own. -/
def sanitize (nodeEnv : Option String) (cv : Coercion) (err : JSError)
    (statusCode : JSVal) (p : Payload) : Payload :=
  if isDevelopment nodeEnv then
    { p with stack := some err.stack }
  else
    let p1 : Payload :=
      if statusCode.geNum cv 500 then
        { p with error := .str "ServerError", message := .str "An internal server error occurred",
                 stack := none }
      else p
    if statusCode.geNum cv 400 && statusCode.ltNum cv 500 then
      if !err.isApiError then
        { p1 with message := .str "Invalid request", error := .str "BadRequest" }
      else p1
    else p1

/-- The response of the payload-too-large branch (lines 31-39). -/
def payloadTooLargeResponse : Response :=
  { status := .num (.fin 413)
    body :=
      { success := false, error := .str "PayloadTooLarge",
        message := .str payloadTooLargeMessage, errors := none, stack := none } }

/-- Line 43: whether building the log line raises a `TypeError`, which it does when
`err.statusCode || 500` or `err.message` does not convert to a string. -/
def logLineThrows (cv : Coercion) (err : JSError) : Bool :=
  (err.statusCode.lor (.num (.fin 500))).unprintable cv || err.message.unprintable cv

/-- The middleware `errorHandler(err, req, res, next)` (lines 19-119). -/
def errorHandler (nodeEnv : Option String) (cv : Coercion)
    (err : JSError) (req : Request) : Outcome :=
  if sizeLimitMarker err then
    { log := [.warn [req.originalUrl, req.method, req.ip]]
      response := some payloadTooLargeResponse }
  else if logLineThrows cv err then
    { log := [], response := none }
  else
    { log :=
        [.error
          [err.statusCode.lor (.num (.fin 500)), err.message, req.originalUrl, req.method, req.ip]
          (if isDevelopment nodeEnv then err.stack else .obj [] [])]
      response :=
        match classify err with
        | none => none
        | some (statusCode, message) =>
          match errorsField err with
          | none => none
          | some errors =>
            some
              { status := statusCode
                body :=
                  sanitize nodeEnv cv err statusCode (basePayload err message errors) } }

/-! ## The error class, the not-found middleware and the async wrapper -/

/-- What the JavaScript engine supplies to `new ApiError(...)`: the conversion `ToString` of
a message that is not a string, and the trace that `Error.captureStackTrace` records. -/
structure Engine where
  toStr : JSVal → String
  trace : JSVal

/-- The constructor `new ApiError(statusCode, message, isOperational = true, stack = '')`
(lines 4-16). An argument that is `undefined` takes its default; `super(message)` stores the
message as a string, and leaves the inherited empty message when it is `undefined`. -/
def ApiError (eng : Engine) (statusCode message isOperational stack : JSVal) : JSError :=
  let isOperational := match isOperational with
    | .undefined => JSVal.bool true
    | v => v
  let stack := match stack with
    | .undefined => JSVal.str ""
    | v => v
  { isApiError := true
    statusCode := statusCode
    message :=
      match message with
      | .undefined => .str ""
      | .str m => .str m
      | v => .str (eng.toStr v)
    name := .str "ApiError"
    type := .undefined
    status := .undefined
    code := .undefined
    keyValue := .undefined
    errors := .undefined
    stack := if stack.truthy then stack else eng.trace
    isOperational := isOperational }

/-- The middleware `notFound(req, res, next)` (lines 122-127): the list of the arguments of
its calls to `next`. -/
def notFound (eng : Engine) (_req : Request) : List JSError :=
  [ApiError eng (.num (.fin 404)) (.str "Resource not found") .undefined .undefined]

/-- The state of a promise once nothing more happens to it. -/
inductive PromiseState (E V : Type) where
  | pending
  | fulfilled (v : V)
  | rejected (e : E)

/-- How a call `fn(req, res, next)` ends: it throws, returns a value that is no promise, or
returns a promise. -/
inductive CallResult (E V : Type) where
  | threw (e : E)
  | returned (v : V)
  | returnedPromise (p : PromiseState E V)

/-- The call `Promise.resolve(x)`: a promise is handed back as it is, any other value is
wrapped in a fulfilled promise. -/
def promiseResolve {E V : Type} : V ⊕ PromiseState E V → PromiseState E V
  | .inl v => .fulfilled v
  | .inr p => p

/-- The call `p.catch(next)`: the arguments of the calls to `next` it makes, and the promise
it returns (`next` returns `undefined`, here `none`). -/
def promiseCatch {E V : Type} : PromiseState E V → List E × PromiseState E (Option V)
  | .pending => ([], .pending)
  | .fulfilled v => ([], .fulfilled (some v))
  | .rejected e => ([e], .fulfilled none)

/-- What a wrapped handler does: the arguments of the calls to `next` that the wrapper
itself makes, and how the wrapper ends. -/
structure WrapperOutcome (E V : Type) where
  nextCalls : List E
  result : CallResult E (Option V)

/-- The wrapper `asyncHandler(fn)` applied to a request (lines 130-132):
`Promise.resolve(fn(req, res, next)).catch(next)`. An exception thrown by `fn` leaves the
wrapper before `Promise.resolve` is reached. -/
def asyncHandler {E V : Type} (fn : Request → CallResult E V) (req : Request) :
    WrapperOutcome E V :=
  match fn req with
  | .threw e => { nextCalls := [], result := .threw e }
  | .returned v =>
    let r := promiseCatch (promiseResolve (.inl v) : PromiseState E V)
    { nextCalls := r.1, result := .returnedPromise r.2 }
  | .returnedPromise p =>
    let r := promiseCatch (promiseResolve (.inr p) : PromiseState E V)
    { nextCalls := r.1, result := .returnedPromise r.2 }

/-! ## Sample inputs -/

/-- An error on which every property reads `undefined`, not an `ApiError`. -/
def bareError : JSError :=
  { isApiError := false, statusCode := .undefined, message := .undefined, name := .undefined,
    type := .undefined, status := .undefined, code := .undefined, keyValue := .undefined,
    errors := .undefined, stack := .undefined, isOperational := .undefined }

/-- A request for `GET /api/items`. -/
def sampleRequest : Request :=
  { originalUrl := .str "/api/items", method := .str "GET", ip := .str "127.0.0.1" }

/-- A stand-in for the unmodelled conversions: no string and no object reads as a number,
and an object fails to convert exactly when a data property `toString` shadows the
inherited method. -/
def plainCoercion : Coercion :=
  { ofString := fun _ => .nan
    ofObject := fun _ _ => .nan
    noPrimitive := fun props hidden => decide ("toString" ∈ (props ++ hidden).map Prod.fst) }

/-- A validation failure as a schema library raises it: one failing field `email`. -/
def validationSample : JSError :=
  { bareError with
    name := .str "ValidationError"
    message := .str "User validation failed"
    errors := .obj [("email", .obj [("message", .str "invalid")] [])] []
    stack := .str "ValidationError: User validation failed at model.js:10" }

/-- A body-parser failure for an oversized request body. -/
def tooLargeSample : JSError :=
  { bareError with
    name := .str "PayloadTooLargeError"
    message := .str "request entity too large"
    type := .str "entity.too.large"
    status := .num (.fin 413)
    statusCode := .num (.fin 413)
    stack := .str "PayloadTooLargeError: request entity too large at readStream" }

/-- A driver failure that carries no `statusCode`. -/
def driverSample : JSError :=
  { bareError with
    name := .str "MongoServerError"
    message := .str "connection to db.internal:27017 refused"
    stack := .str "MongoServerError: connection refused at pool.js:88" }

/-- An HTTP-client failure that carries the upstream status, here a redirect. -/
def upstreamSample : JSError :=
  { bareError with
    name := .str "StatusCodeError"
    message := .str "302 - redirected to http://10.0.0.5:8080/login"
    statusCode := .num (.fin 302)
    stack := .str "StatusCodeError: 302 at request.js:41" }

/-- An `ApiError` instance whose subclass renamed it: own status 422, name `ValidationError`. -/
def renamedApiErrorSample : JSError :=
  { bareError with
    isApiError := true
    statusCode := .num (.fin 422)
    name := .str "ValidationError"
    message := .str "Unprocessable entity"
    isOperational := .bool true
    stack := .str "ValidationError: Unprocessable entity at validate.js:7" }

/-- An error carrying a truthy `statusCode` that is no HTTP error code. -/
def okStatusSample : JSError :=
  { bareError with
    name := .str "Error"
    message := .str "upstream replied"
    statusCode := .num (.fin 200)
    stack := .str "Error: upstream replied at proxy.js:3" }

/-- A token failure that also carries the storage layer's duplicate-key fields. -/
def tokenDuplicateSample : JSError :=
  { bareError with
    name := .str "JsonWebTokenError"
    message := .str "jwt malformed"
    code := .num (.fin 11000)
    keyValue := .obj [("email", .str "a@b.c")] []
    stack := .str "JsonWebTokenError: jwt malformed at verify.js:12" }

/-- A plain token failure. -/
def tokenSample : JSError :=
  { bareError with
    name := .str "TokenExpiredError"
    message := .str "jwt expired"
    stack := .str "TokenExpiredError: jwt expired at verify.js:30" }

/-- A stand-in engine: values that are no strings print as "[value]", traces are fixed. -/
def sampleEngine : Engine :=
  { toStr := fun _ => "[value]", trace := .str "ApiError: at handler.js:1" }

/-- A duplicate-key failure as an older storage server reports it: no `keyValue`. -/
def duplicateNoKeyValueSample : JSError :=
  { bareError with
    name := .str "MongoServerError"
    message := .str "E11000 duplicate key error collection: app.users index: email_1"
    code := .num (.fin 11000)
    stack := .str "MongoServerError: E11000 duplicate key error at insert.js:5" }

/-- A validation failure whose mapping has an entry without sub-error object. -/
def validationNullEntrySample : JSError :=
  { bareError with
    name := .str "ValidationError"
    message := .str "User validation failed"
    errors := .obj [("email", .null)] []
    stack := .str "ValidationError: User validation failed at model.js:10" }

/-- A duplicate-key failure that reports two conflicting fields. -/
def duplicateSample : JSError :=
  { bareError with
    name := .str "MongoServerError"
    message := .str "E11000 duplicate key error collection: app.users"
    code := .num (.fin 11000)
    keyValue := .obj [("email", .str "a@b.c"), ("tenant", .str "t1")] []
    stack := .str "MongoServerError: E11000 duplicate key error at insert.js:5" }

/-- Another request, for `POST /admin/secret?token=abc` from another address. -/
def otherRequest : Request :=
  { originalUrl := .str "/admin/secret?token=abc", method := .str "POST", ip := .str "10.1.2.3" }

/-- A validation failure whose sub-error is an `Error` instance, with the non-enumerable
`message` that such an instance has, as a schema library builds it. -/
def validatorInstanceSample : JSError :=
  { bareError with
    name := .str "ValidationError"
    message := .str "User validation failed"
    errors :=
      .obj [("email", .obj [("kind", .str "regexp"), ("path", .str "email")]
        [("message", .str "invalid"), ("name", .str "ValidatorError")])] []
    stack := .str "ValidationError: User validation failed at model.js:10" }

/-- A validation failure whose mapping has the own key `__proto__` (as `JSON.parse` can
produce) next to the key `email`. -/
def protoKeySample : JSError :=
  { bareError with
    name := .str "ValidationError"
    message := .str "User validation failed"
    errors :=
      .obj [("__proto__", .obj [("message", .str "m1")] []),
        ("email", .obj [("message", .str "m2")] [])] []
    stack := .str "ValidationError: User validation failed at model.js:10" }

/-- A driver failure whose `message` is an object that shadows `toString` with `null`. -/
def unprintableMessageSample : JSError :=
  { driverSample with message := .obj [("toString", .null)] [] }

/-! ## Basic facts about the value operations -/

theorem strictEqStr_eq_true_iff (v : JSVal) (s : String) :
    v.strictEqStr s = true ↔ v = .str s := by
  cases v <;> simp [JSVal.strictEqStr]

theorem strictEqNum_eq_true_iff (v : JSVal) (k : ℚ) :
    v.strictEqNum k = true ↔ v = .num (.fin k) := by
  cases v with
  | num n => cases n <;> simp [JSVal.strictEqNum]
  | _ => simp [JSVal.strictEqNum]

theorem sizeLimitMarker_eq_true_iff (err : JSError) :
    sizeLimitMarker err = true ↔
      err.type = .str "entity.too.large" ∨ err.status = .num (.fin 413) := by
  simp [sizeLimitMarker, strictEqStr_eq_true_iff, strictEqNum_eq_true_iff]

theorem ge_lt_exclusive (n : JSNum) (a b : ℚ) (hab : b ≤ a) :
    ¬ (n.ge (.fin a) = true ∧ n.lt (.fin b) = true) := by
  cases n <;> simp [JSNum.ge, JSNum.lt]
  intro h
  exact le_trans hab h

/-! ## The shape of a response outside the payload-too-large branch -/

theorem response_eq_some_iff (nodeEnv : Option String) (cv : Coercion)
    (err : JSError) (req : Request) (resp : Response) (hMark : sizeLimitMarker err = false) :
    (errorHandler nodeEnv cv err req).response = some resp ↔
      logLineThrows cv err = false ∧
        ∃ sc msg errs, classify err = some (sc, msg) ∧ errorsField err = some errs ∧
          resp = { status := sc
                   body := sanitize nodeEnv cv err sc (basePayload err msg errs) } := by
  unfold errorHandler
  rw [if_neg (by simp [hMark])]
  cases hp : logLineThrows cv err with
  | true => simp
  | false =>
    simp only [Bool.false_eq_true, if_false, true_and]
    constructor
    · intro h
      cases hc : classify err with
      | none => simp [hc] at h
      | some sm =>
        obtain ⟨sc, msg⟩ := sm
        cases he : errorsField err with
        | none => simp [hc, he] at h
        | some errs =>
          simp only [hc, he, Option.some.injEq] at h
          exact ⟨sc, msg, errs, rfl, rfl, h.symm⟩
    · rintro ⟨sc, msg, errs, hc, he, rfl⟩
      simp [hc, he]

theorem sanitize_production_stack (nodeEnv : Option String) (cv : Coercion)
    (err : JSError) (sc : JSVal) (p : Payload) (hMode : isDevelopment nodeEnv = false)
    (hp : p.stack = none) : (sanitize nodeEnv cv err sc p).stack = none := by
  unfold sanitize
  cases sc.geNum cv 500 <;> cases sc.geNum cv 400 <;>
    cases sc.ltNum cv 500 <;> cases err.isApiError <;> simp [hMode, hp]

theorem sanitize_errors (nodeEnv : Option String) (cv : Coercion)
    (err : JSError) (sc : JSVal) (p : Payload) :
    (sanitize nodeEnv cv err sc p).errors = p.errors := by
  unfold sanitize
  cases isDevelopment nodeEnv <;> cases sc.geNum cv 500 <;> cases sc.geNum cv 400 <;>
    cases sc.ltNum cv 500 <;> cases err.isApiError <;> simp

theorem sanitize_success (nodeEnv : Option String) (cv : Coercion)
    (err : JSError) (sc : JSVal) (p : Payload) :
    (sanitize nodeEnv cv err sc p).success = p.success := by
  unfold sanitize
  cases isDevelopment nodeEnv <;> cases sc.geNum cv 500 <;> cases sc.geNum cv 400 <;>
    cases sc.ltNum cv 500 <;> cases err.isApiError <;> simp

theorem sanitize_production_serverError (nodeEnv : Option String) (cv : Coercion)
    (err : JSError) (sc : JSVal) (p : Payload) (hMode : isDevelopment nodeEnv = false)
    (h500 : sc.geNum cv 500 = true) :
    sanitize nodeEnv cv err sc p =
      { p with error := .str "ServerError", message := .str "An internal server error occurred",
               stack := none } := by
  have hlt : sc.ltNum cv 500 = false := by
    cases hl : sc.ltNum cv 500 with
    | false => rfl
    | true => exact absurd ⟨h500, hl⟩ (ge_lt_exclusive _ 500 500 le_rfl)
  simp [sanitize, hMode, h500, hlt]

theorem sanitize_production_clientError (nodeEnv : Option String) (cv : Coercion)
    (err : JSError) (sc : JSVal) (p : Payload) (hMode : isDevelopment nodeEnv = false)
    (hApi : err.isApiError = false)
    (h400 : sc.geNum cv 400 = true) (h500 : sc.ltNum cv 500 = true) :
    sanitize nodeEnv cv err sc p =
      { p with message := .str "Invalid request", error := .str "BadRequest" } := by
  have hge : sc.geNum cv 500 = false := by
    cases hg : sc.geNum cv 500 with
    | false => rfl
    | true => exact absurd ⟨hg, h500⟩ (ge_lt_exclusive _ 500 500 le_rfl)
  simp [sanitize, hMode, hApi, h400, h500, hge]

theorem errorsField_eq_none_iff (err : JSError) (errs : Option JSVal)
    (h : errorsField err = some errs) : errs = none ↔ err.errors.truthy = false := by
  unfold errorsField at h
  cases ht : err.errors.truthy with
  | false =>
    simp only [ht, Bool.false_eq_true, if_false, Option.some.injEq] at h
    simp [← h]
  | true =>
    simp only [ht, if_true] at h
    cases hn : err.name.strictEqStr "ValidationError" with
    | false =>
      simp only [hn, Bool.false_eq_true, if_false, Option.some.injEq] at h
      simp [← h]
    | true =>
      simp only [hn, if_true] at h
      cases hk : err.errors.objectKeys with
      | none => simp [hk] at h
      | some keys =>
        simp only [hk, Option.map_eq_some'] at h
        obtain ⟨es, -, hes⟩ := h
        simp [← hes]

/-! ## Claims about the production payload -/

/-- C1 (as amended): in production mode, for an error that is not an `ApiError`, carries no
size-limit marker and is answered with a status in [400,500), the payload has `success` false,
`error` "BadRequest", `message` "Invalid request" and no `stack`; it has no `errors` property
exactly when `err.errors` is falsy, so it is the bare three-field object in that case and
carries an `errors` property next to the three fields when `err.errors` is truthy. -/
theorem production_clientError_payload (cv : Coercion) (err : JSError)
    (req : Request) (resp : Response)
    (hApi : err.isApiError = false) (hMark : sizeLimitMarker err = false)
    (hResp : (errorHandler (some "production") cv err req).response = some resp)
    (h400 : resp.status.geNum cv 400 = true)
    (h500 : resp.status.ltNum cv 500 = true) :
    (err.errors.truthy = false →
        resp.body =
          { success := false, error := .str "BadRequest", message := .str "Invalid request",
            errors := none, stack := none }) ∧
      (err.errors.truthy = true →
        ∃ e, resp.body =
          { success := false, error := .str "BadRequest", message := .str "Invalid request",
            errors := some e, stack := none }) := by
  obtain ⟨-, sc, msg, errs, -, he, rfl⟩ :=
    (response_eq_some_iff (some "production") cv err req resp hMark).mp hResp
  have hbody := sanitize_production_clientError (some "production") cv err sc
    (basePayload err msg errs) rfl hApi h400 h500
  have hnone := errorsField_eq_none_iff err errs he
  simp only [hbody]
  simp only [basePayload]
  cases errs with
  | none =>
    refine ⟨fun _ => rfl, fun ht => ?_⟩
    rw [hnone.mp rfl] at ht
    cases ht
  | some e =>
    refine ⟨fun hf => ?_, fun _ => ⟨e, rfl⟩⟩
    have := hnone.mpr hf
    cases this

/-- Witness for C1 (as amended): a `CastError` without `errors`, answered 400 in production. -/
theorem production_clientError_payload_witness :
    ∃ resp,
      (errorHandler (some "production") plainCoercion
          { bareError with name := .str "CastError" } sampleRequest).response = some resp ∧
        resp.status = .num (.fin 400) ∧
        resp.body =
          { success := false, error := .str "BadRequest", message := .str "Invalid request",
            errors := none, stack := none } :=
  ⟨_, rfl, rfl,
    (production_clientError_payload plainCoercion { bareError with name := .str "CastError" }
      sampleRequest _ rfl rfl rfl rfl rfl).1 rfl⟩

/-- Counterexample to C1 as stated: a validation failure with one field error, not an
`ApiError` and without size-limit marker, is answered 400 in production with a payload that
carries an `errors` property. -/
theorem production_clientError_errors_counterexample :
    validationSample.isApiError = false ∧ sizeLimitMarker validationSample = false ∧
      (errorHandler (some "production") plainCoercion validationSample sampleRequest).response =
        some
          { status := .num (.fin 400)
            body :=
              { success := false, error := .str "BadRequest", message := .str "Invalid request",
                errors := some (.obj [("email", .str "invalid")] []), stack := none } } ∧
      (JSVal.num (.fin 400)).geNum plainCoercion 400 = true ∧
      (JSVal.num (.fin 400)).ltNum plainCoercion 500 = true :=
  ⟨rfl, rfl, rfl, rfl, rfl⟩

theorem response_of_sizeLimitMarker (nodeEnv : Option String) (cv : Coercion)
    (err : JSError) (req : Request) (hMark : sizeLimitMarker err = true) :
    (errorHandler nodeEnv cv err req).response = some payloadTooLargeResponse := by
  simp [errorHandler, hMark]

/-- C2: the handler evaluated at the failing input, in production mode: an error that is not
an `ApiError`, has no size-limit marker and carries the truthy `statusCode` 302 is answered
with its own `name` and `message`, since neither the 5xx nor the 4xx rewriting applies. -/
theorem production_lowStatus_leaks (cv : Coercion) (req : Request) :
    upstreamSample.isApiError = false ∧ sizeLimitMarker upstreamSample = false ∧
      (errorHandler (some "production") cv upstreamSample req).response =
        some
          { status := .num (.fin 302)
            body :=
              { success := false, error := .str "StatusCodeError",
                message := .str "302 - redirected to http://10.0.0.5:8080/login",
                errors := none, stack := none } } :=
  ⟨rfl, rfl, rfl⟩

/-- C3: in production mode, whenever the handler answers with a status `>= 500` (for an
`ApiError` or any other error), the payload has `error` "ServerError", `message`
"An internal server error occurred" and no `stack` property. -/
theorem production_serverError_opaque (cv : Coercion) (err : JSError)
    (req : Request) (resp : Response)
    (hResp : (errorHandler (some "production") cv err req).response = some resp)
    (h500 : resp.status.geNum cv 500 = true) :
    resp.body.error = .str "ServerError" ∧
      resp.body.message = .str "An internal server error occurred" ∧
      resp.body.stack = none := by
  cases hM : sizeLimitMarker err with
  | true =>
    rw [response_of_sizeLimitMarker _ _ _ _ hM, Option.some.injEq] at hResp
    subst hResp
    revert h500
    simp [payloadTooLargeResponse, JSVal.geNum, JSVal.toNumber, JSNum.ge]
    norm_num
  | false =>
    obtain ⟨-, sc, msg, errs, -, -, rfl⟩ :=
      (response_eq_some_iff (some "production") cv err req resp hM).mp hResp
    have hbody := sanitize_production_serverError (some "production") cv err sc
      (basePayload err msg errs) rfl h500
    simp only [hbody, and_self]

/-- Witness for C3: a driver failure without `statusCode` is answered 500 in production. -/
theorem production_serverError_opaque_witness :
    ∃ resp,
      (errorHandler (some "production") plainCoercion driverSample sampleRequest).response =
          some resp ∧
        resp.status = .num (.fin 500) ∧
        (resp.body.error = .str "ServerError" ∧
          resp.body.message = .str "An internal server error occurred" ∧
          resp.body.stack = none) :=
  ⟨_, rfl, rfl,
    production_serverError_opaque plainCoercion driverSample sampleRequest _ rfl rfl⟩

/-! ## Claims about the status code -/

theorem classify_unmatched (err : JSError)
    (hVal : err.name.strictEqStr "ValidationError" = false)
    (hJwt : err.name.strictEqStr "JsonWebTokenError" = false)
    (hExp : err.name.strictEqStr "TokenExpiredError" = false)
    (hCast : err.name.strictEqStr "CastError" = false)
    (hCode : err.code.strictEqNum 11000 = false) :
    classify err = some (initialStatus err, err.message) := by
  simp [classify, validationRule, tokenRule, duplicateKeyRule, castRule, hVal, hJwt, hExp, hCast,
    hCode]

theorem errorsField_of_not_validation (err : JSError)
    (hVal : err.name.strictEqStr "ValidationError" = false) :
    errorsField err = some (if err.errors.truthy then some err.errors else none) := by
  unfold errorsField
  cases err.errors.truthy <;> simp [hVal]

/-- C4: the handler evaluated at the failing input, in every mode: an `ApiError` instance with
own `statusCode` 422 and no size-limit marker, whose `name` is "ValidationError", is answered
with status 400, because the rule of lines 48-51 runs for `ApiError` instances too. -/
theorem apiError_status_overridden (nodeEnv : Option String) (cv : Coercion)
    (req : Request) :
    renamedApiErrorSample.isApiError = true ∧ sizeLimitMarker renamedApiErrorSample = false ∧
      renamedApiErrorSample.statusCode = .num (.fin 422) ∧
      ((errorHandler nodeEnv cv renamedApiErrorSample req).response.map fun r => r.status) =
        some (.num (.fin 400)) :=
  ⟨rfl, rfl, rfl, rfl⟩

theorem response_of_unmatched (nodeEnv : Option String) (cv : Coercion)
    (err : JSError) (req : Request) (hMark : sizeLimitMarker err = false)
    (hPrint : logLineThrows cv err = false)
    (hVal : err.name.strictEqStr "ValidationError" = false)
    (hJwt : err.name.strictEqStr "JsonWebTokenError" = false)
    (hExp : err.name.strictEqStr "TokenExpiredError" = false)
    (hCast : err.name.strictEqStr "CastError" = false)
    (hCode : err.code.strictEqNum 11000 = false) :
    ∃ resp, (errorHandler nodeEnv cv err req).response = some resp ∧
      resp.status = initialStatus err :=
  ⟨_, (response_eq_some_iff nodeEnv cv err req _ hMark).mpr
    ⟨hPrint, _, _, _, classify_unmatched err hVal hJwt hExp hCast hCode,
      errorsField_of_not_validation err hVal, rfl⟩, rfl⟩

/-- C5 (as amended): for an error that is not an `ApiError` and matches none of the specific
rules (no size-limit marker, name none of ValidationError, JsonWebTokenError,
TokenExpiredError, CastError, code not 11000), the status of the response the handler
emits is the error's own `statusCode` whenever that value is truthy (whether or not it lies
in 400..599) and 500 when it is falsy (absent, zero, NaN, empty). -/
theorem fallback_status (nodeEnv : Option String) (cv : Coercion)
    (err : JSError) (req : Request) (resp : Response)
    (hApi : err.isApiError = false) (hMark : sizeLimitMarker err = false)
    (hVal : err.name.strictEqStr "ValidationError" = false)
    (hJwt : err.name.strictEqStr "JsonWebTokenError" = false)
    (hExp : err.name.strictEqStr "TokenExpiredError" = false)
    (hCast : err.name.strictEqStr "CastError" = false)
    (hCode : err.code.strictEqNum 11000 = false)
    (hResp : (errorHandler nodeEnv cv err req).response = some resp) :
    (err.statusCode.truthy = true → resp.status = err.statusCode) ∧
      (err.statusCode.truthy = false → resp.status = .num (.fin 500)) := by
  obtain ⟨-, sc, msg, errs, hc, -, rfl⟩ :=
    (response_eq_some_iff nodeEnv cv err req resp hMark).mp hResp
  rw [classify_unmatched err hVal hJwt hExp hCast hCode, Option.some.injEq,
    Prod.mk.injEq] at hc
  obtain ⟨rfl, -⟩ := hc
  constructor
  · intro ht
    simp [initialStatus, hApi, JSVal.lor, ht]
  · intro hf
    simp [initialStatus, hApi, JSVal.lor, hf]

/-- Witness for C5 (as amended): a driver failure without `statusCode` is answered 500. -/
theorem fallback_status_witness :
    ∃ resp,
      (errorHandler (some "development") plainCoercion driverSample sampleRequest).response =
          some resp ∧
        resp.status = .num (.fin 500) :=
  ⟨_, rfl,
    (fallback_status (some "development") plainCoercion driverSample sampleRequest _
      rfl rfl rfl rfl rfl rfl rfl rfl).2 rfl⟩

/-- Counterexample to C5 as stated: an error that matches no specific rule and carries
`statusCode` 200, outside 400..599, is answered with status 200 and not 500. -/
theorem fallback_status_counterexample :
    okStatusSample.isApiError = false ∧ sizeLimitMarker okStatusSample = false ∧
      okStatusSample.statusCode = .num (.fin 200) ∧
      ((errorHandler (some "production") plainCoercion okStatusSample sampleRequest).response.map
          fun r => r.status) = some (.num (.fin 200)) ∧
      JSVal.num (.fin 200) ≠ .num (.fin 500) :=
  ⟨rfl, rfl, rfl, rfl, by simp⟩

/-- C6: an error with `type === 'entity.too.large'` or `status === 413` is answered, in every
mode and whatever its other properties, with status 413 and exactly the payload
`success` false, `error` "PayloadTooLarge", `message` the fixed text, which mentions "20MB";
no `errors` and no `stack` property. -/
theorem payloadTooLarge_response (nodeEnv : Option String) (cv : Coercion)
    (err : JSError) (req : Request)
    (h : err.type = .str "entity.too.large" ∨ err.status = .num (.fin 413)) :
    (errorHandler nodeEnv cv err req).response =
        some
          { status := .num (.fin 413)
            body :=
              { success := false, error := .str "PayloadTooLarge",
                message :=
                  .str
                    "Request payload too large. Maximum file size is 20MB. Please reduce the file size and try again."
                errors := none, stack := none } } ∧
      "20MB".toList <:+: payloadTooLargeMessage.toList := by
  refine ⟨?_, by decide⟩
  rw [response_of_sizeLimitMarker nodeEnv cv err req
    ((sizeLimitMarker_eq_true_iff err).mpr h)]
  rfl

/-- Witness for C6: an `ApiError` with own status 422 that also carries `status` 413. -/
theorem payloadTooLarge_response_witness :
    (errorHandler (some "development") plainCoercion
        { renamedApiErrorSample with status := .num (.fin 413) } sampleRequest).response =
        some
          { status := .num (.fin 413)
            body :=
              { success := false, error := .str "PayloadTooLarge",
                message :=
                  .str
                    "Request payload too large. Maximum file size is 20MB. Please reduce the file size and try again."
                errors := none, stack := none } } ∧
      "20MB".toList <:+: payloadTooLargeMessage.toList :=
  payloadTooLarge_response (some "development") plainCoercion
    { renamedApiErrorSample with status := .num (.fin 413) } sampleRequest (Or.inr rfl)

/-! ## The field-error mapping of a validation failure -/

theorem defineOwn_of_not_mem (key : String) (v : JSVal) (acc : List (String × JSVal))
    (h : key ∉ acc.map Prod.fst) : JSVal.defineOwn key v acc = acc ++ [(key, v)] := by
  induction acc with
  | nil => simp [JSVal.defineOwn]
  | cons kv rest ih =>
    obtain ⟨k, w⟩ := kv
    simp only [List.map_cons, List.mem_cons, not_or] at h
    have hk : ¬ k = key := fun e => h.1 e.symm
    simp [JSVal.defineOwn, hk, ih h.2]

theorem setProp_own (key : String) (v : JSVal) (props hidden : List (String × JSVal))
    (h : key ∉ props.map Prod.fst) :
    (JSVal.setProp key v props hidden).1 =
      if key = "__proto__" then props else props ++ [(key, v)] := by
  unfold JSVal.setProp
  by_cases hk : key = "__proto__"
  · simp only [hk, if_true]
    cases v <;> rfl
  · simp [hk, defineOwn_of_not_mem key v props h]

theorem setProp_hidden (key : String) (v : JSVal) (props hidden : List (String × JSVal))
    (h : key ≠ "__proto__") : (JSVal.setProp key v props hidden).2 = hidden := by
  simp [JSVal.setProp, h]

/-- What line 82 stores under `key`: the `message` read from `source[key]`. -/
theorem fieldMessages_own (source : JSVal) (keys : List String) :
    ∀ (acc es : List (String × JSVal) × List (String × JSVal)),
      fieldMessages source keys acc = some es →
      keys.Nodup → (∀ k ∈ keys, k ∉ acc.1.map Prod.fst) →
      es.1 = acc.1 ++ (keys.filter fun k => decide (k ≠ "__proto__")).map fun k =>
        (k, ((source.getProp k).bind fun sub => sub.getProp "message").getD .undefined) := by
  induction keys with
  | nil =>
    intro acc es h _ _
    simp only [fieldMessages, Option.some.injEq] at h
    simp [h]
  | cons key rest ih =>
    intro acc es h hnd hdisj
    unfold fieldMessages at h
    cases hs : source.getProp key with
    | none => simp [hs] at h
    | some sub =>
      cases hm : sub.getProp "message" with
      | none => simp [hs, hm] at h
      | some m =>
        simp only [hs, hm] at h
        have hkey : key ∉ acc.1.map Prod.fst := hdisj key (List.mem_cons_self _ _)
        have hown := setProp_own key m acc.1 acc.2 hkey
        have hnd2 := List.nodup_cons.mp hnd
        have hrest : ∀ k ∈ rest, k ∉ (JSVal.setProp key m acc.1 acc.2).1.map Prod.fst := by
          intro k hk
          rw [hown]
          by_cases hp : key = "__proto__"
          · simpa [hp] using hdisj k (List.mem_cons_of_mem _ hk)
          · simp only [hp, if_false, List.map_append, List.map_cons, List.map_nil,
              List.mem_append, List.mem_singleton, not_or]
            exact ⟨hdisj k (List.mem_cons_of_mem _ hk), fun e => hnd2.1 (e ▸ hk)⟩
        have := ih _ es h hnd2.2 hrest
        rw [this, hown]
        by_cases hp : key = "__proto__"
        · simp [hp]
        · simp [hp, hs, hm]

theorem fieldMessages_hidden (source : JSVal) (keys : List String) :
    ∀ (acc es : List (String × JSVal) × List (String × JSVal)),
      fieldMessages source keys acc = some es → "__proto__" ∉ keys → es.2 = acc.2 := by
  induction keys with
  | nil =>
    intro acc es h _
    simp only [fieldMessages, Option.some.injEq] at h
    simp [h]
  | cons key rest ih =>
    intro acc es h hp
    unfold fieldMessages at h
    simp only [List.mem_cons, not_or] at hp
    cases hs : source.getProp key with
    | none => simp [hs] at h
    | some sub =>
      cases hm : sub.getProp "message" with
      | none => simp [hs, hm] at h
      | some m =>
        simp only [hs, hm] at h
        rw [ih _ es h hp.2, setProp_hidden key m acc.1 acc.2 (fun e => hp.1 e.symm)]

theorem lookup_of_mem_nodup (props : List (String × JSVal))
    (hnd : (props.map Prod.fst).Nodup) (kv : String × JSVal) (h : kv ∈ props) :
    JSVal.lookup kv.1 props = kv.2 := by
  induction props with
  | nil => simp at h
  | cons p rest ih =>
    obtain ⟨k, w⟩ := p
    simp only [List.map_cons, List.nodup_cons] at hnd
    rcases List.mem_cons.mp h with h | h
    · subst h
      simp [JSVal.lookup]
    · have hk : ¬ k = kv.1 := by
        intro e
        exact hnd.1 (e ▸ List.mem_map_of_mem Prod.fst h)
      simp [JSVal.lookup, hk, ih hnd.2 h]

theorem lookup_append_of_mem (key : String) (props hidden : List (String × JSVal))
    (h : key ∈ props.map Prod.fst) :
    JSVal.lookup key (props ++ hidden) = JSVal.lookup key props := by
  induction props with
  | nil => simp at h
  | cons p rest ih =>
    obtain ⟨k, w⟩ := p
    by_cases hk : k = key
    · simp [JSVal.lookup, hk]
    · have hrest : key ∈ rest.map Prod.fst := by
        simp only [List.map_cons, List.mem_cons] at h
        rcases h with h | h
        · exact absurd h.symm hk
        · exact h
      simp [JSVal.lookup, hk, ih hrest]

theorem lookup_mem (key : String) (props : List (String × JSVal))
    (h : key ∈ props.map Prod.fst) : ∃ kv ∈ props, JSVal.lookup key props = kv.2 := by
  induction props with
  | nil => simp at h
  | cons kv rest ih =>
    obtain ⟨k, w⟩ := kv
    by_cases hk : k = key
    · exact ⟨(k, w), List.mem_cons_self _ _, by simp [JSVal.lookup, hk]⟩
    · have hrest : key ∈ rest.map Prod.fst := by
        simp only [List.map_cons, List.mem_cons] at h
        rcases h with h | h
        · exact absurd h.symm hk
        · exact h
      obtain ⟨kv, hkv, hl⟩ := ih hrest
      exact ⟨kv, List.mem_cons_of_mem _ hkv, by simp [JSVal.lookup, hk, hl]⟩

theorem fieldMessages_obj_own (props hidden : List (String × JSVal))
    (es : List (String × JSVal) × List (String × JSVal))
    (hnd : (props.map Prod.fst).Nodup)
    (h : fieldMessages (.obj props hidden) (props.map Prod.fst) ([], []) = some es) :
    es.1 = (props.filter fun kv => decide (kv.1 ≠ "__proto__")).map fun kv =>
      (kv.1, (kv.2.getProp "message").getD .undefined) := by
  have := fieldMessages_own (.obj props hidden) (props.map Prod.fst) ([], []) es h hnd
    (by simp)
  rw [this, List.nil_append, List.filter_map, List.map_map]
  apply List.map_congr_left
  intro kv hkv
  have hmem := (List.mem_filter.mp hkv).1
  simp [JSVal.getProp, lookup_append_of_mem kv.1 props hidden (List.mem_map_of_mem Prod.fst hmem),
    lookup_of_mem_nodup props hnd kv hmem]

theorem getProp_isSome_of_not_nullish (v : JSVal) (key : String)
    (h : v ≠ .undefined ∧ v ≠ .null) : ∃ m, v.getProp key = some m := by
  cases v with
  | undefined => exact absurd rfl h.1
  | null => exact absurd rfl h.2
  | bool b => exact ⟨_, rfl⟩
  | num n => exact ⟨_, rfl⟩
  | obj props hidden => exact ⟨_, rfl⟩
  | str t => exact ⟨_, rfl⟩

theorem fieldMessages_obj_isSome (props hidden : List (String × JSVal))
    (hsub : ∀ kv ∈ props, kv.2 ≠ .undefined ∧ kv.2 ≠ .null) (keys : List String) :
    ∀ (acc : List (String × JSVal) × List (String × JSVal)),
      (∀ k ∈ keys, k ∈ props.map Prod.fst) →
      ∃ es, fieldMessages (.obj props hidden) keys acc = some es := by
  induction keys with
  | nil => intro acc _; exact ⟨acc, rfl⟩
  | cons key rest ih =>
    intro acc hin
    have hkey := hin key (List.mem_cons_self _ _)
    obtain ⟨kv, hkv, hl⟩ := lookup_mem key props hkey
    have hsrc : (JSVal.obj props hidden).getProp key = some (JSVal.lookup key props) := by
      simp [JSVal.getProp, lookup_append_of_mem key props hidden hkey]
    obtain ⟨m, hm⟩ := getProp_isSome_of_not_nullish (JSVal.lookup key props) "message"
      (hl ▸ hsub kv hkv)
    obtain ⟨es, hes⟩ := ih (JSVal.setProp key m acc.1 acc.2)
      (fun k hk => hin k (List.mem_cons_of_mem _ hk))
    refine ⟨es, ?_⟩
    unfold fieldMessages
    simp only [hsrc, hm]
    exact hes

theorem classify_isSome_of_keyValue (err : JSError)
    (h : err.code = .num (.fin 11000) → err.keyValue ≠ .undefined ∧ err.keyValue ≠ .null) :
    ∃ sm, classify err = some sm := by
  unfold classify duplicateKeyRule
  cases hc : err.code.strictEqNum 11000 with
  | false => simp
  | true =>
    have hk := h ((strictEqNum_eq_true_iff _ _).mp hc)
    cases hkv : err.keyValue with
    | undefined => exact absurd hkv hk.1
    | null => exact absurd hkv hk.2
    | bool b => simp [JSVal.objectKeys]
    | num n => simp [JSVal.objectKeys]
    | str t => simp [JSVal.objectKeys]
    | obj ps hs => simp [JSVal.objectKeys]

theorem errorsField_validation_obj (err : JSError) (props hidden : List (String × JSVal))
    (hName : err.name = .str "ValidationError") (hErrors : err.errors = .obj props hidden) :
    errorsField err =
      (fieldMessages (.obj props hidden) (props.map Prod.fst) ([], [])).map fun es =>
        some (.obj es.1 es.2) := by
  simp [errorsField, hErrors, JSVal.truthy, hName, JSVal.strictEqStr, JSVal.objectKeys]

/-- C7 (as amended): for an error named "ValidationError" without size-limit marker whose
`err.errors` is a mapping with distinct keys, none of them `__proto__`, in every mode, the
`errors` property of the response the handler emits is a mapping with as many entries as
`err.errors` and the same keys (in the same order). -/
theorem validation_errors_keys (nodeEnv : Option String) (cv : Coercion)
    (err : JSError) (req : Request) (resp : Response) (props hidden : List (String × JSVal))
    (hName : err.name = .str "ValidationError") (hMark : sizeLimitMarker err = false)
    (hErrors : err.errors = .obj props hidden) (hKeys : (props.map Prod.fst).Nodup)
    (hProto : "__proto__" ∉ props.map Prod.fst)
    (hResp : (errorHandler nodeEnv cv err req).response = some resp) :
    ∃ es, resp.body.errors = some (.obj es []) ∧ es.length = props.length ∧
      es.map Prod.fst = props.map Prod.fst := by
  obtain ⟨-, sc, msg, errs, -, he, rfl⟩ :=
    (response_eq_some_iff nodeEnv cv err req resp hMark).mp hResp
  rw [errorsField_validation_obj err props hidden hName hErrors, Option.map_eq_some'] at he
  obtain ⟨es, hes, rfl⟩ := he
  have hown := fieldMessages_obj_own props hidden es hKeys hes
  have hhid := fieldMessages_hidden _ _ _ es hes hProto
  have hfilter : (props.filter fun kv => decide (kv.1 ≠ "__proto__")) = props := by
    apply List.filter_eq_self.mpr
    intro kv hkv
    have : kv.1 ≠ "__proto__" := fun e => hProto (e ▸ List.mem_map_of_mem Prod.fst hkv)
    simpa using this
  rw [hfilter] at hown
  refine ⟨es.1, ?_, ?_, ?_⟩
  · simp [sanitize_errors, basePayload, hhid]
  · simp [hown]
  · simp [hown, Function.comp_def]

/-- Witness for C7 (as amended): the validation failure with the single field `email`. -/
theorem validation_errors_keys_witness :
    ∃ resp,
      (errorHandler (some "production") plainCoercion validationSample sampleRequest).response =
          some resp ∧
        ∃ es, resp.body.errors = some (.obj es []) ∧ es.length = 1 ∧
          es.map Prod.fst = ["email"] :=
  ⟨_, rfl,
    validation_errors_keys (some "production") plainCoercion validationSample sampleRequest _
      [("email", .obj [("message", .str "invalid")] [])] [] rfl rfl rfl (by decide) (by decide)
      rfl⟩

/-- Counterexample to C7 as stated: a "ValidationError" without size-limit marker whose
`errors` mapping has the two distinct own keys `__proto__` and `email` is answered with an
`errors` property of one entry, `email`: the assignment of line 82 under the key
`__proto__` defines no property. -/
theorem validation_errors_keys_counterexample :
    protoKeySample.name = .str "ValidationError" ∧ sizeLimitMarker protoKeySample = false ∧
      protoKeySample.errors =
        .obj [("__proto__", .obj [("message", .str "m1")] []),
          ("email", .obj [("message", .str "m2")] [])] [] ∧
      ((errorHandler (some "production") plainCoercion protoKeySample
          sampleRequest).response.map fun r => r.body.errors) =
        some (some (.obj [("email", .str "m2")] [])) :=
  ⟨rfl, rfl, rfl, rfl⟩

/-! ## Claims about the `stack` property -/

theorem sanitize_development (nodeEnv : Option String) (cv : Coercion)
    (err : JSError) (sc : JSVal) (p : Payload) (hMode : isDevelopment nodeEnv = true) :
    sanitize nodeEnv cv err sc p = { p with stack := some err.stack } := by
  simp [sanitize, hMode]

/-- C8 (as amended): in development mode, for every error without size-limit marker, the
payload of the response the handler sends has a `stack` property, equal to `err.stack`. -/
theorem development_stack (cv : Coercion) (err : JSError) (req : Request)
    (resp : Response) (hMark : sizeLimitMarker err = false)
    (hResp : (errorHandler (some "development") cv err req).response = some resp) :
    resp.body.stack = some err.stack := by
  obtain ⟨-, sc, msg, errs, -, -, rfl⟩ :=
    (response_eq_some_iff (some "development") cv err req resp hMark).mp hResp
  simp [sanitize_development (some "development") cv err sc _ rfl]

/-- Witness for C8 (as amended): a driver failure in development mode. -/
theorem development_stack_witness :
    ∃ resp,
      (errorHandler (some "development") plainCoercion driverSample sampleRequest).response =
          some resp ∧
        resp.body.stack = some (.str "MongoServerError: connection refused at pool.js:88") :=
  ⟨_, rfl, development_stack plainCoercion driverSample sampleRequest _ rfl rfl⟩

/-- Counterexample to C8 as stated: in development mode the oversized-body error, which has
a stack trace, is answered with a payload that has no `stack` property. -/
theorem development_stack_counterexample :
    tooLargeSample.stack = .str "PayloadTooLargeError: request entity too large at readStream" ∧
      ((errorHandler (some "development") plainCoercion tooLargeSample
          sampleRequest).response.map fun r => r.body.stack) = some none :=
  ⟨rfl, rfl⟩

/-- C9: in production mode, for every error and every branch of the handler (the
payload-too-large branch and `ApiError` inputs included), the payload of the response sent
has no `stack` property. -/
theorem production_no_stack (cv : Coercion) (err : JSError) (req : Request)
    (resp : Response)
    (hResp : (errorHandler (some "production") cv err req).response = some resp) :
    resp.body.stack = none := by
  cases hM : sizeLimitMarker err with
  | true =>
    rw [response_of_sizeLimitMarker _ _ _ _ hM, Option.some.injEq] at hResp
    subst hResp
    rfl
  | false =>
    obtain ⟨-, sc, msg, errs, -, -, rfl⟩ :=
      (response_eq_some_iff (some "production") cv err req resp hM).mp hResp
    exact sanitize_production_stack (some "production") cv err sc _ rfl rfl

/-- Witness for C9: the renamed `ApiError`, which has a stack trace, in production mode. -/
theorem production_no_stack_witness :
    ∃ resp,
      (errorHandler (some "production") plainCoercion renamedApiErrorSample
          sampleRequest).response = some resp ∧
        resp.body.stack = none :=
  ⟨_, rfl, production_no_stack plainCoercion renamedApiErrorSample sampleRequest _ rfl⟩

/-! ## Precedence of the rules -/

/-- C10 (as amended): for an error that is not an `ApiError`, carries no size-limit marker
and is named "JsonWebTokenError" or "TokenExpiredError", the response the handler emits has
status 401 provided `code` is not 11000; when `code` is 11000 (the handler then responds
only if `Object.keys(err.keyValue)` succeeds, as for a mapping), the later duplicate-key
rule replaces the status and the response has status 400. -/
theorem token_status (nodeEnv : Option String) (cv : Coercion)
    (err : JSError) (req : Request) (resp : Response)
    (_hApi : err.isApiError = false) (hMark : sizeLimitMarker err = false)
    (hName : err.name = .str "JsonWebTokenError" ∨ err.name = .str "TokenExpiredError")
    (hResp : (errorHandler nodeEnv cv err req).response = some resp) :
    (err.code ≠ .num (.fin 11000) → resp.status = .num (.fin 401)) ∧
      (err.code = .num (.fin 11000) → resp.status = .num (.fin 400)) := by
  have hVal : err.name.strictEqStr "ValidationError" = false := by
    rcases hName with h | h <;> rw [h] <;> rfl
  have hCast : err.name.strictEqStr "CastError" = false := by
    rcases hName with h | h <;> rw [h] <;> rfl
  have hTok : (err.name.strictEqStr "JsonWebTokenError" ||
      err.name.strictEqStr "TokenExpiredError") = true := by
    rcases hName with h | h <;> rw [h] <;> rfl
  obtain ⟨-, sc, msg, errs, hc, -, rfl⟩ :=
    (response_eq_some_iff nodeEnv cv err req resp hMark).mp hResp
  constructor
  · intro hCode
    have hcode : err.code.strictEqNum 11000 = false := by
      cases h : err.code.strictEqNum 11000 with
      | false => rfl
      | true => exact absurd ((strictEqNum_eq_true_iff _ _).mp h) hCode
    simp only [classify, validationRule, tokenRule, duplicateKeyRule, castRule, hVal, hCast,
      hTok, hcode, Bool.false_eq_true, if_false, if_true, Option.map_some',
      Option.some.injEq, Prod.mk.injEq] at hc
    exact hc.1.symm
  · intro hCode
    have hcode : err.code.strictEqNum 11000 = true := (strictEqNum_eq_true_iff _ _).mpr hCode
    cases hk : err.keyValue.objectKeys with
    | none =>
      simp [classify, duplicateKeyRule, hcode, hk] at hc
    | some keys =>
      simp only [classify, validationRule, tokenRule, duplicateKeyRule, castRule, hVal, hCast,
        hTok, hcode, hk, Bool.false_eq_true, if_false, if_true, Option.map_some',
        Option.some.injEq, Prod.mk.injEq] at hc
      exact hc.1.symm

/-- Witness for C10 (as amended): an expired token without `code` is answered 401. -/
theorem token_status_witness :
    ∃ resp,
      (errorHandler (some "production") plainCoercion tokenSample sampleRequest).response =
          some resp ∧
        resp.status = .num (.fin 401) :=
  ⟨_, rfl,
    (token_status (some "production") plainCoercion tokenSample sampleRequest _ rfl rfl
      (Or.inr rfl) rfl).1 (by simp [tokenSample, bareError])⟩

/-- Counterexample to C10 as stated: a "JsonWebTokenError" that is not an `ApiError`, has no
size-limit marker and also carries `code` 11000 with a `keyValue` mapping is answered with
status 400, not 401. -/
theorem token_status_counterexample :
    tokenDuplicateSample.isApiError = false ∧ sizeLimitMarker tokenDuplicateSample = false ∧
      tokenDuplicateSample.name = .str "JsonWebTokenError" ∧
      ((errorHandler (some "production") plainCoercion tokenDuplicateSample
          sampleRequest).response.map fun r => r.status) = some (.num (.fin 400)) ∧
      JSVal.num (.fin 400) ≠ .num (.fin 401) :=
  ⟨rfl, rfl, rfl, rfl, by simp⟩

/-! ## Responding at all -/

/-- C11: the handler evaluated at the two failing inputs, in every mode and for every
request: for an error with `code` 11000 and no `keyValue`, `Object.keys(err.keyValue)`
(line 62) raises a `TypeError`, and for a "ValidationError" whose `errors` mapping has the
entry `email: null`, `err.errors[key].message` (line 82) does; in both cases the handler
ends without a response, after its `logger.error` call. -/
theorem typeError_without_response (nodeEnv : Option String) (cv : Coercion) (req : Request) :
    (errorHandler nodeEnv cv duplicateNoKeyValueSample req).response = none ∧
      (errorHandler nodeEnv cv validationNullEntrySample req).response = none ∧
      sizeLimitMarker duplicateNoKeyValueSample = false ∧
      sizeLimitMarker validationNullEntrySample = false :=
  ⟨rfl, rfl, rfl, rfl⟩

/-! ## Errors built by the `ApiError` constructor -/

theorem classify_ApiError (eng : Engine) (statusCode message isOperational stack : JSVal) :
    classify (ApiError eng statusCode message isOperational stack) =
      some (statusCode, (ApiError eng statusCode message isOperational stack).message) := by
  simp [classify, validationRule, tokenRule, duplicateKeyRule, castRule, initialStatus,
    ApiError, JSVal.strictEqStr, JSVal.strictEqNum]

theorem errorsField_ApiError (eng : Engine) (statusCode message isOperational stack : JSVal) :
    errorsField (ApiError eng statusCode message isOperational stack) = some none := by
  simp [errorsField, ApiError, JSVal.truthy]

theorem sizeLimitMarker_ApiError (eng : Engine)
    (statusCode message isOperational stack : JSVal) :
    sizeLimitMarker (ApiError eng statusCode message isOperational stack) = false := by
  simp [sizeLimitMarker, ApiError, JSVal.strictEqStr, JSVal.strictEqNum]

theorem logLineThrows_ApiError (cv : Coercion) (eng : Engine) (n : JSNum)
    (message isOperational stack : JSVal) :
    logLineThrows cv (ApiError eng (.num n) message isOperational stack) = false := by
  have h1 : ∀ v : JSVal, ((JSVal.num n).lor v).unprintable cv = v.unprintable cv ∨
      ((JSVal.num n).lor v).unprintable cv = false := by
    intro v
    unfold JSVal.lor
    split
    · exact Or.inr rfl
    · exact Or.inl rfl
  have h2 : ((JSVal.num n).lor (.num (.fin 500))).unprintable cv = false := by
    rcases h1 (.num (.fin 500)) with h | h
    · rw [h]; rfl
    · exact h
  have h3 : (ApiError eng (.num n) message isOperational stack).message.unprintable cv
      = false := by
    cases message <;> rfl
  simp only [logLineThrows, Bool.or_eq_false_iff]
  exact ⟨h2, h3⟩

/-- C12: for an error built as `new ApiError(s, m)` with `400 <= s < 500` and `m` a non-empty
string (whatever the optional constructor arguments), the production response has status `s`
and the payload is exactly `success` false, `error` "ApiError", `message` `m`, with no
`errors` and no `stack` property. -/
theorem apiError_production_response (cv : Coercion) (eng : Engine) (req : Request)
    (s : ℚ) (m : String) (isOperational stack : JSVal)
    (h400 : 400 ≤ s) (h500 : s < 500) (hm : m ≠ "") :
    (errorHandler (some "production") cv
        (ApiError eng (.num (.fin s)) (.str m) isOperational stack) req).response =
      some
        { status := .num (.fin s)
          body :=
            { success := false, error := .str "ApiError", message := .str m,
              errors := none, stack := none } } := by
  rw [response_eq_some_iff _ _ _ _ _ (sizeLimitMarker_ApiError eng _ _ _ _)]
  refine ⟨logLineThrows_ApiError cv eng _ _ _ _, _, _, _, classify_ApiError eng _ _ _ _,
    errorsField_ApiError eng _ _ _ _, ?_⟩
  have hge : ¬ (500 : ℚ) ≤ s := not_le.mpr h500
  simp [sanitize, isDevelopment, JSVal.geNum, JSVal.ltNum, JSVal.toNumber, JSNum.ge, JSNum.lt,
    h400, h500, hge, basePayload, ApiError, JSVal.lor, JSVal.truthy, hm]

/-- Witness for C12: `new ApiError(403, 'Not allowed')` in production mode. -/
theorem apiError_production_response_witness :
    (errorHandler (some "production") plainCoercion
        (ApiError sampleEngine (.num (.fin 403)) (.str "Not allowed") .undefined .undefined)
        sampleRequest).response =
      some
        { status := .num (.fin 403)
          body :=
            { success := false, error := .str "ApiError", message := .str "Not allowed",
              errors := none, stack := none } } :=
  apiError_production_response plainCoercion sampleEngine sampleRequest 403 "Not allowed"
    .undefined .undefined (by norm_num) (by norm_num) (by decide)

theorem response_ApiError (nodeEnv : Option String) (cv : Coercion) (eng : Engine)
    (req : Request) (n : JSNum) (message isOperational stack : JSVal) :
    (errorHandler nodeEnv cv (ApiError eng (.num n) message isOperational stack) req).response =
      some
        { status := .num n
          body :=
            sanitize nodeEnv cv (ApiError eng (.num n) message isOperational stack) (.num n)
              (basePayload (ApiError eng (.num n) message isOperational stack)
                (ApiError eng (.num n) message isOperational stack).message none) } :=
  (response_eq_some_iff _ _ _ _ _ (sizeLimitMarker_ApiError eng _ _ _ _)).mpr
    ⟨logLineThrows_ApiError cv eng _ _ _ _, _, _, _, classify_ApiError eng _ _ _ _,
      errorsField_ApiError eng _ _ _ _, rfl⟩

/-- C13: for every request, `notFound` calls `next` once, with an `ApiError` whose
`statusCode` is 404, `message` "Resource not found" and `isOperational` true; the handler
answers that error, in every mode and for every request, with status 404, `error`
"ApiError" and `message` "Resource not found"; and the forwarded error is the same for any
two requests, so neither it nor the response depends on `req.originalUrl`. -/
theorem notFound_response (nodeEnv : Option String) (cv : Coercion) (eng : Engine)
    (req req2 : Request) :
    ∃ e, notFound eng req = [e] ∧
      e.isApiError = true ∧ e.statusCode = .num (.fin 404) ∧
      e.message = .str "Resource not found" ∧ e.isOperational = .bool true ∧
      (∃ resp, (errorHandler nodeEnv cv e req).response = some resp ∧
        (errorHandler nodeEnv cv e req2).response = some resp ∧
        resp.status = .num (.fin 404) ∧ resp.body.error = .str "ApiError" ∧
        resp.body.message = .str "Resource not found") ∧
      notFound eng req2 = [e] := by
  refine ⟨_, rfl, rfl, rfl, rfl, rfl, ⟨_, response_ApiError nodeEnv cv eng req _ _ _ _,
    response_ApiError nodeEnv cv eng req2 _ _ _ _, ?_⟩, rfl⟩
  cases hd : isDevelopment nodeEnv <;>
    simp [sanitize, hd, JSVal.geNum, JSVal.ltNum, JSVal.toNumber, JSNum.ge, JSNum.lt,
      basePayload, ApiError, JSVal.lor, JSVal.truthy]
  norm_num

/-! ## The development response to a validation failure -/

theorem classify_validation (err : JSError) (hName : err.name = .str "ValidationError")
    (hCode : err.code ≠ .num (.fin 11000)) :
    classify err =
      some (.num (.fin 400), err.message.lor (.str "One or more fields are invalid")) := by
  have hc : err.code.strictEqNum 11000 = false := by
    cases h : err.code.strictEqNum 11000 with
    | false => rfl
    | true => exact absurd ((strictEqNum_eq_true_iff _ _).mp h) hCode
  simp [classify, validationRule, tokenRule, duplicateKeyRule, castRule, hName, hc,
    JSVal.strictEqStr]

/-- C14 (as amended): in development mode, for an error that is not an `ApiError`, is named
"ValidationError" and has neither size-limit marker nor `code` 11000, the response the
handler emits has status 400, `error` "ValidationError", `message` the error's own message
when that is truthy (a non-empty string) and "One or more fields are invalid" otherwise,
and, when `err.errors` is a mapping with distinct keys, an `errors` property that maps every
key other than `__proto__` to the `message` read from that key's sub-error. -/
theorem development_validation_response (cv : Coercion) (err : JSError) (req : Request)
    (resp : Response)
    (_hApi : err.isApiError = false) (hName : err.name = .str "ValidationError")
    (hMark : sizeLimitMarker err = false) (hCode : err.code ≠ .num (.fin 11000))
    (hResp : (errorHandler (some "development") cv err req).response = some resp) :
    resp.status = .num (.fin 400) ∧ resp.body.error = .str "ValidationError" ∧
      (err.message.truthy = true → resp.body.message = err.message) ∧
      (err.message.truthy = false →
        resp.body.message = .str "One or more fields are invalid") ∧
      (∀ props hidden, err.errors = .obj props hidden → (props.map Prod.fst).Nodup →
        ∃ hs, resp.body.errors =
          some (.obj ((props.filter fun kv => decide (kv.1 ≠ "__proto__")).map fun kv =>
            (kv.1, (kv.2.getProp "message").getD .undefined)) hs)) := by
  have hcl := classify_validation err hName hCode
  obtain ⟨-, sc, msg, errs, hc, he, rfl⟩ :=
    (response_eq_some_iff (some "development") cv err req resp hMark).mp hResp
  rw [hcl, Option.some.injEq, Prod.mk.injEq] at hc
  obtain ⟨rfl, rfl⟩ := hc
  rw [sanitize_development (some "development") cv err _ _ rfl]
  refine ⟨rfl, ?_, ?_, ?_, ?_⟩
  · simp [basePayload, hName, JSVal.lor, JSVal.truthy]
  · intro ht
    simp [basePayload, JSVal.lor, ht]
  · intro hf
    have h2 : (JSVal.str "One or more fields are invalid").truthy = true := rfl
    simp [basePayload, JSVal.lor, hf, h2]
  · intro props hidden hErrors hnd
    rw [errorsField_validation_obj err props hidden hName hErrors, Option.map_eq_some'] at he
    obtain ⟨es, hes, rfl⟩ := he
    exact ⟨es.2, by simp [basePayload, fieldMessages_obj_own props hidden es hnd hes]⟩

/-- Witness for C14 (as amended): a validation failure whose sub-error for `email` is an
`Error` instance with the message "invalid", in development mode. -/
theorem development_validation_response_witness :
    ∃ resp,
      (errorHandler (some "development") plainCoercion validatorInstanceSample
          sampleRequest).response = some resp ∧
        resp.status = .num (.fin 400) ∧ resp.body.error = .str "ValidationError" ∧
        resp.body.message = .str "User validation failed" ∧
        ∃ hs, resp.body.errors = some (.obj [("email", .str "invalid")] hs) :=
  have h := development_validation_response plainCoercion validatorInstanceSample
    sampleRequest _ rfl rfl rfl (by simp [validatorInstanceSample, bareError]) rfl
  ⟨_, rfl, h.1, h.2.1, h.2.2.1 rfl,
    h.2.2.2.2
      [("email", .obj [("kind", .str "regexp"), ("path", .str "email")]
        [("message", .str "invalid"), ("name", .str "ValidatorError")])] [] rfl (by decide)⟩

/-- Counterexample to C14 as stated: in development mode a "ValidationError" that is not
an `ApiError`, has neither size-limit marker nor `code`, and whose `errors` mapping has the
fields `__proto__` and `email`, is answered with an `errors` property that maps `email`
alone: the field `__proto__` is not mapped to its sub-error's message "m1". -/
theorem development_validation_response_counterexample :
    protoKeySample.isApiError = false ∧ protoKeySample.name = .str "ValidationError" ∧
      sizeLimitMarker protoKeySample = false ∧ protoKeySample.code = .undefined ∧
      protoKeySample.errors =
        .obj [("__proto__", .obj [("message", .str "m1")] []),
          ("email", .obj [("message", .str "m2")] [])] [] ∧
      ((errorHandler (some "development") plainCoercion protoKeySample
          sampleRequest).response.map fun r => r.body.errors) =
        some (some (.obj [("email", .str "m2")] [])) :=
  ⟨rfl, rfl, rfl, rfl, rfl, rfl⟩

/-! ## The development response to a duplicate-key failure -/

theorem errorsField_isSome (err : JSError)
    (h : err.name ≠ .str "ValidationError" ∨ err.errors.truthy = false ∨
      ∃ props hidden, err.errors = .obj props hidden ∧
        ∀ kv ∈ props, kv.2 ≠ .undefined ∧ kv.2 ≠ .null) :
    ∃ errs, errorsField err = some errs := by
  cases hVal : err.name.strictEqStr "ValidationError" with
  | false => exact ⟨_, errorsField_of_not_validation err hVal⟩
  | true =>
    have hName := (strictEqStr_eq_true_iff _ _).mp hVal
    rcases h with hn | hf | ⟨props, hidden, hErrors, hsub⟩
    · exact absurd hName hn
    · exact ⟨none, by simp [errorsField, hf]⟩
    · obtain ⟨es, hes⟩ := fieldMessages_obj_isSome props hidden hsub (props.map Prod.fst)
        ([], []) (fun k hk => hk)
      exact ⟨some (.obj es.1 es.2), by
        rw [errorsField_validation_obj err props hidden hName hErrors, hes]; rfl⟩

/-- The handler responds when none of its three `TypeError`s is raised: the log line of
line 43 converts, `Object.keys(err.keyValue)` of line 62 is not reached or finds a value,
and the reads of line 82 are not reached or find a sub-error under every key. -/
theorem response_isSome (nodeEnv : Option String) (cv : Coercion) (err : JSError)
    (req : Request) (hMark : sizeLimitMarker err = false)
    (hPrint : logLineThrows cv err = false)
    (hKV : err.code = .num (.fin 11000) → err.keyValue ≠ .undefined ∧ err.keyValue ≠ .null)
    (hErrs : err.name ≠ .str "ValidationError" ∨ err.errors.truthy = false ∨
      ∃ props hidden, err.errors = .obj props hidden ∧
        ∀ kv ∈ props, kv.2 ≠ .undefined ∧ kv.2 ≠ .null) :
    ∃ resp, (errorHandler nodeEnv cv err req).response = some resp := by
  obtain ⟨sm, hsm⟩ := classify_isSome_of_keyValue err hKV
  obtain ⟨errs, he⟩ := errorsField_isSome err hErrs
  exact ⟨_, (response_eq_some_iff nodeEnv cv err req _ hMark).mpr
    ⟨hPrint, sm.1, sm.2, errs, hsm, he, rfl⟩⟩

theorem alreadyExists_truthy (k : String) :
    (JSVal.str (k ++ " already exists")).truthy = true := by
  have hne : k ++ " already exists" ≠ "" := by
    intro h
    have hl := congrArg String.length h
    rw [String.length_append] at hl
    have h15 : " already exists".length = 15 := by decide
    have h0 : "".length = 0 := rfl
    omega
  simp [JSVal.truthy, hne]

theorem classify_duplicateKey (err : JSError) (k : String) (v : JSVal)
    (rest hidden : List (String × JSVal)) (hCode : err.code = .num (.fin 11000))
    (hCast : err.name ≠ .str "CastError")
    (hKV : err.keyValue = .obj ((k, v) :: rest) hidden) :
    classify err = some (.num (.fin 400), .str (k ++ " already exists")) := by
  have hc : err.code.strictEqNum 11000 = true := (strictEqNum_eq_true_iff _ _).mpr hCode
  have hcast : err.name.strictEqStr "CastError" = false := by
    cases h : err.name.strictEqStr "CastError" with
    | false => rfl
    | true => exact absurd ((strictEqStr_eq_true_iff _ _).mp h) hCast
  simp [classify, duplicateKeyRule, castRule, hc, hcast, hKV, JSVal.objectKeys]

/-- C15: in development mode, for an error with `code` 11000, no size-limit marker, a name
other than "CastError" and a `keyValue` mapping whose first key is `k` (whatever keys
follow), the response the handler emits has status 400 and `message` `k` followed by
" already exists". -/
theorem development_duplicateKey_response (cv : Coercion) (err : JSError) (req : Request)
    (resp : Response) (k : String) (v : JSVal) (rest hidden : List (String × JSVal))
    (hMark : sizeLimitMarker err = false) (hCode : err.code = .num (.fin 11000))
    (hCast : err.name ≠ .str "CastError")
    (hKV : err.keyValue = .obj ((k, v) :: rest) hidden)
    (hResp : (errorHandler (some "development") cv err req).response = some resp) :
    resp.status = .num (.fin 400) ∧ resp.body.message = .str (k ++ " already exists") := by
  have hcl := classify_duplicateKey err k v rest hidden hCode hCast hKV
  obtain ⟨-, sc, msg, errs, hc, -, rfl⟩ :=
    (response_eq_some_iff (some "development") cv err req resp hMark).mp hResp
  rw [hcl, Option.some.injEq, Prod.mk.injEq] at hc
  obtain ⟨rfl, rfl⟩ := hc
  rw [sanitize_development (some "development") cv err _ _ rfl]
  exact ⟨rfl, by simp [basePayload, JSVal.lor, alreadyExists_truthy]⟩

/-- Witness for C15: a duplicate-key failure reporting `email` and `tenant`; only `email`
is named in the message. -/
theorem development_duplicateKey_response_witness :
    ∃ resp,
      (errorHandler (some "development") plainCoercion duplicateSample
          sampleRequest).response = some resp ∧
        resp.status = .num (.fin 400) ∧ resp.body.message = .str "email already exists" :=
  ⟨_, rfl,
    development_duplicateKey_response plainCoercion duplicateSample sampleRequest _
      "email" (.str "a@b.c") [("tenant", .str "t1")] [] rfl rfl
      (by simp [duplicateSample, bareError]) rfl rfl⟩

/-! ## What the response depends on -/

/-- C16: the response (status and payload) is a function of the error and the mode only: for
every error and any two requests the handler's responses are identical; the request enters
the log call alone. -/
theorem response_independent_of_request (nodeEnv : Option String) (cv : Coercion)
    (err : JSError) (req1 req2 : Request) :
    (errorHandler nodeEnv cv err req1).response = (errorHandler nodeEnv cv err req2).response := by
  unfold errorHandler
  split
  · rfl
  · split <;> rfl

/-- C17: `asyncHandler(fn)` forwards and does nothing else: when the promise returned by `fn`
rejects with `e`, the wrapper calls `next` exactly once, with `e` itself; when `fn` returns a
promise that fulfils, or a value that is no promise, the wrapper makes no call to `next`. -/
theorem asyncHandler_forwards {E V : Type} (fn : Request → CallResult E V) (req : Request) :
    (∀ e, fn req = .returnedPromise (.rejected e) → (asyncHandler fn req).nextCalls = [e]) ∧
      (∀ v, fn req = .returnedPromise (.fulfilled v) ∨ fn req = .returned v →
        (asyncHandler fn req).nextCalls = []) := by
  constructor
  · intro e h
    simp [asyncHandler, h, promiseResolve, promiseCatch]
  · rintro v (h | h) <;> simp [asyncHandler, h, promiseResolve, promiseCatch]

/-- Witness for C17: a handler whose promise rejects with the driver failure, and a handler
whose promise fulfils. -/
theorem asyncHandler_forwards_witness :
    (asyncHandler (fun _ => (.returnedPromise (.rejected driverSample) : CallResult JSError JSVal))
        sampleRequest).nextCalls = [driverSample] ∧
      (asyncHandler
        (fun _ => (.returnedPromise (.fulfilled .undefined) : CallResult JSError JSVal))
        sampleRequest).nextCalls = [] :=
  ⟨(asyncHandler_forwards
      (fun _ => (.returnedPromise (.rejected driverSample) : CallResult JSError JSVal))
      sampleRequest).1 driverSample rfl,
    (asyncHandler_forwards
      (fun _ => (.returnedPromise (.fulfilled .undefined) : CallResult JSError JSVal))
      sampleRequest).2 .undefined (Or.inl rfl)⟩

/-- C18 (as amended): for every error that does not take the payload-too-large branch and
whose `err.statusCode || 500` and `err.message` convert to a string, the handler makes
exactly one `logger.error` call, and the status written in it is `err.statusCode || 500`,
the error's own `statusCode` when truthy and 500 otherwise; that is the status of the
response sent when the error is not an `ApiError` and matches none of the specific rules. -/
theorem error_log_status (nodeEnv : Option String) (cv : Coercion) (err : JSError)
    (req : Request) (hMark : sizeLimitMarker err = false)
    (hPrint : logLineThrows cv err = false) :
    (errorHandler nodeEnv cv err req).log =
        [.error
          [err.statusCode.lor (.num (.fin 500)), err.message, req.originalUrl, req.method, req.ip]
          (if isDevelopment nodeEnv then err.stack else .obj [] [])] ∧
      (err.isApiError = false →
        err.name.strictEqStr "ValidationError" = false →
        err.name.strictEqStr "JsonWebTokenError" = false →
        err.name.strictEqStr "TokenExpiredError" = false →
        err.name.strictEqStr "CastError" = false →
        err.code.strictEqNum 11000 = false →
        ∃ resp, (errorHandler nodeEnv cv err req).response = some resp ∧
          resp.status = err.statusCode.lor (.num (.fin 500))) := by
  constructor
  · simp [errorHandler, hMark, hPrint]
  · intro hApi hVal hJwt hExp hCast hCode
    obtain ⟨resp, hr, hs⟩ :=
      response_of_unmatched nodeEnv cv err req hMark hPrint hVal hJwt hExp hCast hCode
    exact ⟨resp, hr, by rw [hs]; simp [initialStatus, hApi]⟩

/-- Witness for C18 (as amended): a driver failure without `statusCode`: the log call and
the response both carry 500. -/
theorem error_log_status_witness :
    (errorHandler (some "production") plainCoercion driverSample sampleRequest).log =
        [.error
          [.num (.fin 500), .str "connection to db.internal:27017 refused",
            .str "/api/items", .str "GET", .str "127.0.0.1"]
          (.obj [] [])] ∧
      ∃ resp,
        (errorHandler (some "production") plainCoercion driverSample sampleRequest).response =
            some resp ∧
          resp.status = .num (.fin 500) :=
  have h := error_log_status (some "production") plainCoercion driverSample sampleRequest
    rfl rfl
  ⟨h.1, h.2 rfl rfl rfl rfl rfl rfl⟩

/-- Counterexample to C18 as stated: for a "ValidationError" without `statusCode` the
`logger.error` call carries the status 500 while the response is sent with status 400; and
for an error whose `message` does not convert to a string no `logger.error` call is made at
all. -/
theorem error_log_status_counterexample :
    sizeLimitMarker validationSample = false ∧
      (errorHandler (some "production") plainCoercion validationSample sampleRequest).log =
        [.error
          [.num (.fin 500), .str "User validation failed",
            .str "/api/items", .str "GET", .str "127.0.0.1"]
          (.obj [] [])] ∧
      ((errorHandler (some "production") plainCoercion validationSample
          sampleRequest).response.map fun r => r.status) = some (.num (.fin 400)) ∧
      JSVal.num (.fin 500) ≠ .num (.fin 400) ∧
      sizeLimitMarker unprintableMessageSample = false ∧
      (errorHandler (some "production") plainCoercion unprintableMessageSample
          sampleRequest).log = [] :=
  ⟨rfl, rfl, rfl, by simp, rfl, rfl⟩

/-! ## The disclosure mode -/

theorem isDevelopment_eq_false_of_ne (nodeEnv : Option String)
    (h : nodeEnv ≠ some "development") : isDevelopment nodeEnv = false := by
  cases nodeEnv with
  | none => rfl
  | some m =>
    have hm : m ≠ "development" := fun e => h (congrArg some e)
    simp [isDevelopment, hm]

theorem sanitize_congr_mode (nodeEnv1 nodeEnv2 : Option String) (cv : Coercion)
    (err : JSError) (sc : JSVal) (p : Payload)
    (h : isDevelopment nodeEnv1 = isDevelopment nodeEnv2) :
    sanitize nodeEnv1 cv err sc p = sanitize nodeEnv2 cv err sc p := by
  simp [sanitize, h]

/-- C19: disclosure fails closed: for every error and every mode value other than
"development" (an unset mode, "test", "staging", "Development", ...), the handler's response,
status and payload, is the one it gives in "production" mode. -/
theorem disclosure_fails_closed (nodeEnv : Option String) (cv : Coercion) (err : JSError)
    (req : Request) (hMode : nodeEnv ≠ some "development") :
    (errorHandler nodeEnv cv err req).response =
      (errorHandler (some "production") cv err req).response := by
  have hs : ∀ sc p, sanitize nodeEnv cv err sc p = sanitize (some "production") cv err sc p :=
    fun sc p => sanitize_congr_mode nodeEnv (some "production") cv err sc p
      ((isDevelopment_eq_false_of_ne nodeEnv hMode).trans rfl)
  unfold errorHandler
  split
  · rfl
  · split
    · rfl
    · simp only [hs]

/-- Witness for C19: an unset mode behaves as production. -/
theorem disclosure_fails_closed_witness :
    (errorHandler none plainCoercion driverSample sampleRequest).response =
      (errorHandler (some "production") plainCoercion driverSample sampleRequest).response :=
  disclosure_fails_closed none plainCoercion driverSample sampleRequest (by decide)

/-- C20: the status of the response does not depend on the mode: for every error and any two
mode values (development and production among them), the handler responds in one exactly
when it responds in the other, with the same status; the payload's `success` and `errors`
are the same too, so the mode can only change `error`, `message` and `stack`. -/
theorem status_independent_of_mode (nodeEnv1 nodeEnv2 : Option String) (cv : Coercion)
    (err : JSError) (req : Request) :
    ((errorHandler nodeEnv1 cv err req).response.map fun r => r.status) =
        ((errorHandler nodeEnv2 cv err req).response.map fun r => r.status) ∧
      ((errorHandler nodeEnv1 cv err req).response.map fun r => (r.body.success, r.body.errors)) =
        ((errorHandler nodeEnv2 cv err req).response.map fun r =>
          (r.body.success, r.body.errors)) := by
  unfold errorHandler
  split
  · exact ⟨rfl, rfl⟩
  · split
    · exact ⟨rfl, rfl⟩
    · cases classify err with
      | none => exact ⟨rfl, rfl⟩
      | some sm =>
        cases errorsField err with
        | none => exact ⟨rfl, rfl⟩
        | some errs => simp [sanitize_errors, sanitize_success]

end ErrorHandler
